import Mathlib

/-!
Shallow embedding of the RAG support-agent backend (src/backend.py).

External collaborators (the language model behind each prompt template, the
vector-similarity service, sqlite statement execution, uuid generation and
wall-clock reads) are modelled as explicit inputs: each call site of the
language model becomes one oracle function of its semantic inputs, the vector
store becomes a retrieval function, the sqlite tables become association
lists threaded through the functions, and every `datetime.now()` of one
request is one `now : Int` parameter (time measured in hours).  The md5
hexdigest of the normalized question is modelled as the normalized question
itself (md5 idealized as injective, as the spec itself assumes).  JSON
round-tripping of source lists and message lists through sqlite columns is
modelled as the identity.
-/

namespace RAGSupport

/-- Python `str.lower()`, modelled as per-character ASCII lowering (every
string this backend lowers and then branches on is ASCII). -/
def pyLower (s : String) : String :=
  ⟨s.data.map Char.toLower⟩

/-- Python `str.strip()`: drop whitespace from both ends. -/
def pyStrip (s : String) : String :=
  ⟨((s.data.dropWhile Char.isWhitespace).reverse.dropWhile Char.isWhitespace).reverse⟩

/-- Python slicing `s[:n]`. -/
def pyTake (s : String) (n : Nat) : String :=
  ⟨s.data.take n⟩

/-- Split a character list on a separator character; `[[]]` on the empty
list, matching Python `"".split(sep) == ['']`. -/
def splitOnChar (sep : Char) : List Char → List (List Char)
  | [] => [[]]
  | c :: rest =>
      let r := splitOnChar sep rest
      if c = sep then [] :: r
      else
        match r with
        | [] => [[c]]
        | h :: t => (c :: h) :: t

/-- Python `s.split("|")` for the one-character separator used by the
sentiment parser. -/
def pySplitPipe (s : String) : List String :=
  (splitOnChar (Char.ofNat 124) s.data).map (fun l => ⟨l⟩)

/-- Whether `sub` is a pre-segment of `l`. -/
def listIsPre : List Char → List Char → Bool
  | [], _ => true
  | _ :: _, [] => false
  | a :: as, b :: bs => a = b && listIsPre as bs

/-- Whether `sub` occurs anywhere in the list. -/
def hasSubAux (sub : List Char) : List Char → Bool
  | [] => listIsPre sub []
  | c :: rest => listIsPre sub (c :: rest) || hasSubAux sub rest

/-- Python `sub in s` substring containment. -/
def pyIn (sub s : String) : Bool :=
  hasSubAux sub.data s.data

/-- Python `query.lower().strip()` from `CacheManager._hash_query`. -/
def normalizeQuery (q : String) : String :=
  pyStrip (pyLower q)

/-- `CacheManager._hash_query`: md5 hexdigest of the normalized question,
idealized as an injective encoding, hence the normalized question itself. -/
def hashQuery (q : String) : String :=
  normalizeQuery q

/-- Lookup in an association list (a sqlite table keyed by its primary key,
or the in-process dict). -/
def alistFind {β : Type} (k : String) : List (String × β) → Option β
  | [] => none
  | (k', v) :: rest => if k' = k then some v else alistFind k rest

/-- Remove a key from an association list (`del d[k]` / `DELETE WHERE id = k`). -/
def alistErase {β : Type} (k : String) : List (String × β) → List (String × β)
  | [] => []
  | (k', v) :: rest => if k' = k then alistErase k rest else (k', v) :: alistErase k rest

/-- Replace-or-insert (`d[k] = v` / `INSERT OR REPLACE`). -/
def alistInsert {β : Type} (k : String) (v : β) (l : List (String × β)) :
    List (String × β) :=
  (k, v) :: alistErase k l

/-- A retrieved source as shaped by `process_query`:
`{"source": ..., "relevance": ..., "preview": ...}`. -/
structure Source where
  source : String
  relevance : Rat
  preview : String
deriving DecidableEq, Repr

/-- The value stored per key in `CacheManager.memory_cache` under `'data'`,
and the value a cache lookup returns. -/
structure CachedData where
  response : String
  sources : List Source
  from_cache : Bool
deriving DecidableEq, Repr

/-- One entry of the in-process tier: the data plus the `'timestamp'` field. -/
structure MemEntry where
  data : CachedData
  timestamp : Int
deriving DecidableEq, Repr

/-- One row of the sqlite `response_cache` table. -/
structure DBCacheRow where
  query : String
  response : String
  sources : List Source
  created_at : Int
  hit_count : Nat
  last_accessed : Int
deriving DecidableEq, Repr

/-- The state owned by `CacheManager`: its `ttl_hours` field, the in-process
dict keyed by query hash, and the durable `response_cache` table keyed by
query hash. -/
structure CacheState where
  ttl_hours : Int
  memory_cache : List (String × MemEntry)
  db : List (String × DBCacheRow)
deriving DecidableEq, Repr

/-- `CacheManager(ttl_hours)` over a fresh database. -/
def emptyCache (ttl_hours : Int) : CacheState :=
  { ttl_hours := ttl_hours, memory_cache := [], db := [] }

/-- The durable-tier lookup inside `CacheManager.get`: the SQL filter is the
hardcoded `datetime(created_at) > datetime('now', '-24 hours')`, i.e.
`now - created_at < 24`; a hit bumps `hit_count` and `last_accessed` and
returns the row with `from_cache = True`. -/
def dbCacheLookup (s : CacheState) (h : String) (now : Int) :
    Option CachedData × CacheState :=
  match alistFind h s.db with
  | some row =>
      if now - row.created_at < 24 then
        let row' := { row with hit_count := row.hit_count + 1, last_accessed := now }
        (some { response := row.response, sources := row.sources, from_cache := true },
         { s with db := alistInsert h row' s.db })
      else (none, s)
  | none => (none, s)

/-- `CacheManager.get`: consult the in-process tier first under the
`now - timestamp < ttl_hours` freshness test, evicting on expiry, then fall
through to the durable tier. -/
def CacheState.get (s : CacheState) (query : String) (now : Int) :
    Option CachedData × CacheState :=
  let h := hashQuery query
  match alistFind h s.memory_cache with
  | some entry =>
      if now - entry.timestamp < s.ttl_hours then (some entry.data, s)
      else dbCacheLookup { s with memory_cache := alistErase h s.memory_cache } h now
  | none => dbCacheLookup s h now

/-- `CacheManager.set`: write both tiers; the in-process entry stores
`from_cache = False` in its data, the durable row starts with `hit_count = 0`. -/
def CacheState.set (s : CacheState) (query response : String) (sources : List Source)
    (now : Int) : CacheState :=
  let h := hashQuery query
  { s with
    memory_cache := alistInsert h
      { data := { response := response, sources := sources, from_cache := false },
        timestamp := now } s.memory_cache,
    db := alistInsert h
      { query := query, response := response, sources := sources,
        created_at := now, hit_count := 0, last_accessed := now } s.db }

/-- `SentimentAnalyzer.analyze`.  The external call is an `Except`: `error`
is the oracle raising.  On a reply, the code strips it and splits on the pipe
character; exactly two parts parse as label and `float(score)` (the float
parse is the Python builtin, abstracted as `parseFloat`; `none` is `float`
raising `ValueError`).  Every failure falls through to `("neutral", 0.0)`. -/
def analyze (oracleReply : Except Unit String) (parseFloat : String → Option Rat) :
    String × Rat :=
  match oracleReply with
  | .error _ => ("neutral", 0)
  | .ok content =>
      match pySplitPipe (pyStrip content) with
      | [a, b] =>
          match parseFloat (pyStrip b) with
          | some score => (pyLower (pyStrip a), score)
          | none => ("neutral", 0)
      | _ => ("neutral", 0)

/-- A document returned by the vector store: `doc.metadata['source']` (the
`'Unknown'` fallback for missing metadata is absorbed into this field) and
`doc.page_content`. -/
structure Doc where
  source : String
  page_content : String
deriving DecidableEq, Repr

/-- The external collaborators of one request.  Each language-model call site
(one fixed prompt template plus the external model) is one function of the
semantic inputs of its template; functions returning `Except` can raise.
`retrieve` is `vs_manager.retrieve(query, k=3)` (a failure inside it already
degrades to `[]` in the source).  `followupGen` is the whole
`FollowUpGenerator.generate` (LLM call plus JSON parsing, degrading to `[]`),
and `detectLanguage` the whole `LanguageDetector.detect_language`; their
internals are not under any claim. -/
structure Oracles where
  detectLanguage : String → String
  sentimentReply : String → Except Unit String
  routeReply : String → String
  gradeReply : String → String → String
  rewriteReply : String → String
  generateReply : String → String → String
  followupGen : String → String → List String
  retrieve : String → List (Doc × Rat)

/-- Stand-in for the Python format spec `:.2f` used when a score is rendered
into prompt or trace text; the rendering only flows into oracle inputs and
trace strings, never into a decision. -/
def formatScore (r : Rat) : String :=
  toString r

/-- `RAGAgentReasoner.route_query`: strip and lower-case the raw reply, append
the trace entry, return the tool name. -/
def routeQuery (o : Oracles) (question : String) (trace : List String) :
    String × List String :=
  let tool := pyLower (pyStrip (o.routeReply question))
  (tool, trace ++ ["Routed to: " ++ tool])

/-- `RAGAgentReasoner.grade_documents`: `"yes" in response.content.lower()`,
plus the trace entry. -/
def gradeDocuments (o : Oracles) (question context : String) (trace : List String) :
    Bool × List String :=
  let is_relevant := pyIn "yes" (pyLower (o.gradeReply question context))
  (is_relevant,
   trace ++ ["Document relevance: " ++
     (if is_relevant then "✓ Relevant" else "✗ Not relevant")])

/-- `RAGAgentReasoner.rewrite_query`: strip the raw reply, append the trace
entry. -/
def rewriteQuery (o : Oracles) (question : String) (trace : List String) :
    String × List String :=
  let rewritten := pyStrip (o.rewriteReply question)
  (rewritten, trace ++ ["Query rewritten: " ++ rewritten])

/-- The context block built from the first retrieval in `process_query`. -/
def buildContext1 (retrieved : List (Doc × Rat)) : String :=
  String.intercalate "\n\n" (retrieved.map (fun p =>
    "📄 " ++ p.1.source ++ " (Score: " ++ formatScore p.2 ++ ")\n" ++ p.1.page_content))

/-- The source list built from the first retrieval: relevance is the actual
similarity score, preview the first 200 characters. -/
def buildSources1 (retrieved : List (Doc × Rat)) : List Source :=
  retrieved.map (fun p =>
    { source := p.1.source, relevance := p.2, preview := pyTake p.1.page_content 200 })

/-- The context block built from the second (post-rewrite) retrieval. -/
def buildContext2 (retrieved : List (Doc × Rat)) : String :=
  String.intercalate "\n\n" (retrieved.map (fun p =>
    p.1.source ++ "\n" ++ p.1.page_content))

/-- The source list built from the second retrieval: the score is discarded
(`for doc, _ in retrieved`) and relevance is the literal `0.0`. -/
def buildSources2 (retrieved : List (Doc × Rat)) : List Source :=
  retrieved.map (fun p =>
    { source := p.1.source, relevance := 0, preview := pyTake p.1.page_content 200 })

/-- Instrumentation of one `process_query` run: the argument of every
`vs_manager.retrieve` call and of every `agent.rewrite_query` call, in order.
It records what happened; it never feeds back into behaviour. -/
structure CallLog where
  retrieveCalls : List String
  rewriteCalls : List String
deriving DecidableEq, Repr

/-- Outcome of steps 2 and 3 of `process_query` (retrieval, grading, optional
rewrite and re-retrieval): the context string, the source list, the value of
`retrieved_count`, the trace so far, and the instrumentation log. -/
structure RetrievalOutcome where
  context : String
  sources : List Source
  retrieved_count : Nat
  trace : List String
  calls : CallLog
deriving DecidableEq, Repr

/-- Steps 2 and 3 of `process_query`.  Only the `knowledge_base` and
`direct_answer` routes retrieve; an empty first retrieval proceeds with empty
context; a graded-irrelevant first retrieval with fewer than 5 trace entries
triggers exactly one rewrite and one re-retrieval, whose results replace
context and sources only when the re-retrieval is non-empty. -/
def retrieveAndGrade (o : Oracles) (question : String) (tool : String)
    (trace : List String) : RetrievalOutcome :=
  if tool = "knowledge_base" ∨ tool = "direct_answer" then
    let retrieved := o.retrieve question
    if retrieved.isEmpty then
      { context := "", sources := [], retrieved_count := 0, trace := trace,
        calls := { retrieveCalls := [question], rewriteCalls := [] } }
    else
      let context := buildContext1 retrieved
      let sources := buildSources1 retrieved
      let graded := gradeDocuments o question context trace
      if graded.1 = false ∧ graded.2.length < 5 then
        let rewritten := rewriteQuery o question graded.2
        let retrieved2 := o.retrieve rewritten.1
        if retrieved2.isEmpty then
          { context := context, sources := sources, retrieved_count := retrieved.length,
            trace := rewritten.2,
            calls := { retrieveCalls := [question, rewritten.1], rewriteCalls := [question] } }
        else
          { context := buildContext2 retrieved2, sources := buildSources2 retrieved2,
            retrieved_count := retrieved2.length, trace := rewritten.2,
            calls := { retrieveCalls := [question, rewritten.1], rewriteCalls := [question] } }
      else
        { context := context, sources := sources, retrieved_count := retrieved.length,
          trace := graded.2,
          calls := { retrieveCalls := [question], rewriteCalls := [] } }
  else
    { context := "", sources := [], retrieved_count := 0, trace := trace,
      calls := { retrieveCalls := [], rewriteCalls := [] } }

/-- One row of the `conversations` table; `messages` and `kb_docs_used` are
stored as JSON, modelled as the parsed values. -/
structure ConvRow where
  customer_id : Option String
  created_at : Int
  messages : List (String × String)
  kb_docs_used : List Source
deriving DecidableEq, Repr

/-- One row of the `sentiment_log` table (the opaque uuid primary key is
omitted; rows are kept in insertion order). -/
structure SentimentRow where
  conversation_id : String
  query_sentiment : String
  query_score : Rat
  response_sentiment : String
  response_score : Rat
  created_at : Int
deriving DecidableEq, Repr

/-- One row of the `analytics` table (uuid primary key omitted). -/
structure AnalyticsRow where
  query : String
  response_time_ms : Rat
  tokens_used : Nat
  documents_retrieved : Nat
  rating : Option Nat
  created_at : Int
deriving DecidableEq, Repr

/-- All persistent state touched by `process_query`: the two cache tiers, the
`conversations` table, and the append-only `sentiment_log` and `analytics`
tables. -/
structure PersistState where
  cache : CacheState
  conversations : List (String × ConvRow)
  sentiment_log : List SentimentRow
  analytics : List AnalyticsRow
deriving DecidableEq, Repr

/-- A fresh `PersistState` over an empty database with the default cache. -/
def emptyPersist : PersistState :=
  { cache := emptyCache 24, conversations := [], sentiment_log := [], analytics := [] }

/-- `_log_analytics`: append one row to the `analytics` table. -/
def logAnalytics (st : PersistState) (query : String) (rt : Rat) (tokens : Nat)
    (docs : Nat) (rating : Option Nat) (now : Int) : PersistState :=
  { st with analytics := st.analytics ++
      [{ query := query, response_time_ms := rt, tokens_used := tokens,
         documents_retrieved := docs, rating := rating, created_at := now }] }

/-- The body of a `POST /query` request. -/
structure QueryRequest where
  question : String
  customer_id : Option String := none
  conversation_id : Option String := none

/-- The `QueryResponse` pydantic model (timestamp as the request clock). -/
structure QueryResponse where
  conversation_id : String
  response : String
  sources : List Source
  reasoning_steps : List String
  timestamp : Int
  from_cache : Bool
  suggested_questions : List String
  sentiment : Option String
deriving DecidableEq, Repr

/-- The cache-hit short circuit of `process_query`: trace is the single
cache-hit marker, the only write is the analytics row, follow-ups are
recomputed, the response carries the cached answer and sources with
`from_cache = True` and no sentiment. -/
def cacheHitPath (o : Oracles) (req : QueryRequest) (st : PersistState)
    (cache' : CacheState) (cached : CachedData) (now : Int)
    (conversation_id : String) : QueryResponse × PersistState × CallLog :=
  let trace := ["Retrieved from cache"]
  let st1 := { st with cache := cache' }
  let st2 := logAnalytics st1 req.question 5 0 cached.sources.length none now
  ({ conversation_id := conversation_id,
     response := cached.response,
     sources := cached.sources,
     reasoning_steps := trace,
     timestamp := now,
     from_cache := true,
     suggested_questions := o.followupGen req.question cached.response,
     sentiment := none },
   st2,
   { retrieveCalls := [], rewriteCalls := [] })

/-- Step 0.5 of the miss path: the query-sentiment pair. -/
def missQuerySentiment (o : Oracles) (parseFloat : String → Option Rat)
    (question : String) : String × Rat :=
  analyze (o.sentimentReply question) parseFloat

/-- The single trace entry written by step 0.5 of the miss path. -/
def missTrace0 (o : Oracles) (parseFloat : String → Option Rat)
    (question : String) : List String :=
  ["Language: " ++ o.detectLanguage question ++ ", Sentiment: " ++
   (missQuerySentiment o parseFloat question).1 ++ " (" ++
   formatScore (missQuerySentiment o parseFloat question).2 ++ ")"]

/-- Step 1 of the miss path: the routing call, on the trace of step 0.5. -/
def missRouted (o : Oracles) (parseFloat : String → Option Rat)
    (question : String) : String × List String :=
  routeQuery o question (missTrace0 o parseFloat question)

/-- Steps 2 and 3 of the miss path on the trace of steps 0.5 and 1. -/
def missOutcome (o : Oracles) (parseFloat : String → Option Rat)
    (question : String) : RetrievalOutcome :=
  retrieveAndGrade o question (missRouted o parseFloat question).1
    (missRouted o parseFloat question).2

/-- The cache-miss path of `process_query`: language and sentiment tagging,
routing, retrieval and grading, generation, response-sentiment tagging,
follow-ups, then the conversation upsert, the sentiment insert, the cache
write and the analytics insert.  `elapsedMs` is the measured generation
wall-clock time. -/
def cacheMissPath (o : Oracles) (parseFloat : String → Option Rat)
    (req : QueryRequest) (st : PersistState) (cache' : CacheState) (now : Int)
    (conversation_id : String) (elapsedMs : Rat) :
    QueryResponse × PersistState × CallLog :=
  let st0 := { st with cache := cache' }
  let qs := missQuerySentiment o parseFloat req.question
  let outcome := missOutcome o parseFloat req.question
  let response_text := o.generateReply req.question outcome.context
  let trace5 := outcome.trace ++ ["Response generated successfully"]
  let rs := analyze (o.sentimentReply response_text) parseFloat
  let sentiment := some (rs.1 ++ " (" ++ formatScore rs.2 ++ ")")
  let suggested := o.followupGen req.question response_text
  let trace6 := trace5 ++ ["Generated " ++ toString suggested.length ++ " follow-up questions"]
  let convRow : ConvRow :=
    { customer_id := req.customer_id, created_at := now,
      messages := [("user", req.question), ("assistant", response_text)],
      kb_docs_used := outcome.sources }
  let sentRow : SentimentRow :=
    { conversation_id := conversation_id, query_sentiment := qs.1, query_score := qs.2,
      response_sentiment := rs.1, response_score := rs.2, created_at := now }
  let st1 := { st0 with
    conversations := alistInsert conversation_id convRow st0.conversations,
    sentiment_log := st0.sentiment_log ++ [sentRow] }
  let st2 := { st1 with cache := st1.cache.set req.question response_text outcome.sources now }
  let st3 := logAnalytics st2 req.question elapsedMs 0 outcome.retrieved_count none now
  ({ conversation_id := conversation_id,
     response := response_text,
     sources := outcome.sources,
     reasoning_steps := trace6,
     timestamp := now,
     from_cache := false,
     suggested_questions := suggested,
     sentiment := sentiment },
   st3,
   outcome.calls)

/-- `process_query` (the `POST /query` handler): resolve the conversation id,
consult the cache, then short-circuit on a hit or run the full pipeline on a
miss.  `freshId` is the uuid drawn when the request carries no conversation
id. -/
def processQuery (o : Oracles) (parseFloat : String → Option Rat)
    (req : QueryRequest) (st : PersistState) (now : Int) (freshId : String)
    (elapsedMs : Rat) : QueryResponse × PersistState × CallLog :=
  let conversation_id := req.conversation_id.getD freshId
  match st.cache.get req.question now with
  | (some cached, cache') => cacheHitPath o req st cache' cached now conversation_id
  | (none, cache') => cacheMissPath o parseFloat req st cache' now conversation_id elapsedMs

/-- The observable outcome of a FastAPI handler: a value, or an
`HTTPException(status, detail)` propagating to the client. -/
inductive HandlerResult (α : Type) where
  | ok (v : α)
  | httpError (status : Nat) (detail : String)
deriving DecidableEq, Repr

/-- What `GET /conversations/{id}` returns on success. -/
structure ConvView where
  conversation_id : String
  created_at : Int
  messages : List (String × String)
  sources_used : List Source
deriving DecidableEq, Repr

/-- The `try` body of `get_conversation`: a missing row raises
`HTTPException(404, "Conversation not found")`, a present row is returned. -/
def getConversationBody (store : List (String × ConvRow)) (conversation_id : String) :
    HandlerResult ConvView :=
  match alistFind conversation_id store with
  | none => .httpError 404 "Conversation not found"
  | some row =>
      .ok { conversation_id := conversation_id, created_at := row.created_at,
            messages := row.messages, sources_used := row.kb_docs_used }

/-- `get_conversation` as written: the handler wraps its body in
`except Exception as e: raise HTTPException(500, str(e))` with no
`except HTTPException: raise` guard, so the 404 raised inside the body (an
`Exception` subclass) is caught and re-raised as a 500 whose detail is
`str(e)`, which for a starlette `HTTPException` renders as
`"{status}: {detail}"`. -/
def getConversation (store : List (String × ConvRow)) (conversation_id : String) :
    HandlerResult ConvView :=
  match getConversationBody store conversation_id with
  | .ok v => .ok v
  | .httpError s d => .httpError 500 (toString s ++ ": " ++ d)

/-- One row of the `knowledge_base` catalog table. -/
structure KBRow where
  filename : String
  file_size : Nat
  upload_date : Int
  status : String
  chunk_count : Nat
deriving DecidableEq, Repr

/-- The external outcomes inside `VectorStoreManager.delete_documents_by_source`
for one source filename: whether `self.vector_store` was initialized, whether
`pc.Index(...)` raises, and whether each of the two `index.delete` attempts
(the `$eq` filter and the plain filter) raises. -/
structure VectorDeleteEnv where
  initialized : Bool
  indexAccessRaises : Bool
  firstDeleteRaises : Bool
  secondDeleteRaises : Bool
deriving DecidableEq, Repr

/-- `VectorStoreManager.delete_documents_by_source` as written: `False` only
when the vector store is uninitialized; every other path, including the path
where both delete attempts raise and the path where obtaining the index
raises, returns `True` (the source comments say so explicitly). -/
def deleteDocumentsBySource (env : VectorDeleteEnv) : Bool :=
  if !env.initialized then false
  else if env.indexAccessRaises then true
  else if !env.firstDeleteRaises then true
  else if !env.secondDeleteRaises then true
  else true

/-- Whether the retrieval-side removal actually succeeded: the store was
initialized, the index was reachable, and at least one delete attempt ran
without raising. -/
def vectorDeleteSucceeded (env : VectorDeleteEnv) : Bool :=
  env.initialized && !env.indexAccessRaises &&
    (!env.firstDeleteRaises || !env.secondDeleteRaises)

/-- What `DELETE /kb-documents/{id}` returns on success. -/
structure DeleteDocResult where
  status : String
  document_id : String
  filename : String
  vector_store_deleted : Bool
deriving DecidableEq, Repr

/-- `delete_document`: a missing catalog id is a 404 (this handler does have
the `except HTTPException: raise` guard, so the 404 survives); a present id
attempts the vector-side delete, then unconditionally removes the catalog row
and reports `"deleted"` with the flag returned by the vector-side call. -/
def deleteDocument (kb : List (String × KBRow)) (document_id : String)
    (env : VectorDeleteEnv) : HandlerResult DeleteDocResult × List (String × KBRow) :=
  match alistFind document_id kb with
  | none => (.httpError 404 "Document not found", kb)
  | some doc =>
      let deleted_from_vector := deleteDocumentsBySource env
      (.ok { status := "deleted", document_id := document_id,
             filename := doc.filename, vector_store_deleted := deleted_from_vector },
       alistErase document_id kb)

/-- A recorded `CacheManager.set` call: its arguments and the time it ran. -/
structure SetOp where
  query : String
  response : String
  sources : List Source
  time : Int

/-- Run a sequence of `set` calls against a cache state, oldest first. -/
def applySets (s : CacheState) : List SetOp → CacheState
  | [] => s
  | op :: rest => applySets (s.set op.query op.response op.sources op.time) rest

/-- A trivial stand-in for the Python `float` parser, used by concrete
witnesses: parses "0" and nothing else. -/
def pf0 : String → Option Rat :=
  fun s => if s = "0" then some 0 else none

/-- A concrete oracle bundle: routes to the knowledge base, grades retrieved
context as not relevant, rewrites "q1" to "q2"; only "q1" retrieves anything,
so the post-rewrite retrieval comes back empty. -/
def oraclesKB : Oracles :=
  { detectLanguage := fun _ => "en"
    sentimentReply := fun _ => .ok "neutral|0"
    routeReply := fun _ => "knowledge_base"
    gradeReply := fun _ _ => "no"
    rewriteReply := fun _ => "q2"
    generateReply := fun _ _ => "answer"
    followupGen := fun _ _ => ["f1"]
    retrieve := fun q => if q = "q1" then [({ source := "a.txt", page_content := "alpha" }, 1)] else [] }

/-- Like `oraclesKB`, but the rewritten query "q2" also retrieves a document,
so the post-rewrite retrieval is non-empty. -/
def oraclesKB2 : Oracles :=
  { oraclesKB with
    retrieve := fun q =>
      if q = "q1" then [({ source := "a.txt", page_content := "alpha" }, 1)]
      else if q = "q2" then [({ source := "b.txt", page_content := "beta" }, 2)]
      else [] }

/-- A concrete cached source for witnesses. -/
def srcA : Source := { source := "s.txt", relevance := 1, preview := "p" }

/-- A persistent state whose cache holds a fresh entry for question "q". -/
def stHit : PersistState :=
  { emptyPersist with cache := (emptyCache 24).set "q" "ans" [srcA] 0 }

/-- A concrete recorded set call for witnesses. -/
def opOther : SetOp :=
  { query := "other", response := "b", sources := [], time := 0 }

/-- A concrete knowledge-base catalog row for witnesses. -/
def kbRowF : KBRow :=
  { filename := "f.txt", file_size := 10, upload_date := 0,
    status := "processed", chunk_count := 3 }

/-- A vector-delete environment in which every external step succeeds. -/
def envOK : VectorDeleteEnv :=
  { initialized := true, indexAccessRaises := false,
    firstDeleteRaises := false, secondDeleteRaises := false }

/-- A vector-delete environment in which both delete attempts raise. -/
def envBad : VectorDeleteEnv :=
  { initialized := true, indexAccessRaises := false,
    firstDeleteRaises := true, secondDeleteRaises := true }

/-- A concrete stored conversation row for witnesses. -/
def convRowA : ConvRow :=
  { customer_id := some "cust", created_at := 7,
    messages := [("user", "hello")], kb_docs_used := [] }

theorem alistFind_erase_self {β : Type} (k : String) (l : List (String × β)) :
    alistFind k (alistErase k l) = none := by
  induction l with
  | nil => rfl
  | cons p rest ih =>
      obtain ⟨k', v⟩ := p
      by_cases h : k' = k
      · simp [alistErase, h, ih]
      · simp [alistErase, alistFind, h, ih]

theorem alistFind_erase_ne {β : Type} {k k' : String} (h : k' ≠ k)
    (l : List (String × β)) : alistFind k (alistErase k' l) = alistFind k l := by
  induction l with
  | nil => rfl
  | cons p rest ih =>
      obtain ⟨k'', v⟩ := p
      by_cases h2 : k'' = k'
      · subst h2
        simp [alistErase, alistFind, h, ih]
      · by_cases h3 : k'' = k
        · simp [alistErase, alistFind, h2, h3, Ne.symm h, ih]
        · simp [alistErase, alistFind, h2, h3, ih]

theorem alistFind_insert {β : Type} (k k' : String) (v : β) (l : List (String × β)) :
    alistFind k (alistInsert k' v l) = if k' = k then some v else alistFind k l := by
  unfold alistInsert
  by_cases h : k' = k
  · simp [alistFind, h]
  · simp [alistFind, h, alistFind_erase_ne h]

theorem applySets_find_none (hkey : String) (s : CacheState) (ops : List SetOp)
    (hm : alistFind hkey s.memory_cache = none)
    (hd : alistFind hkey s.db = none)
    (hops : ∀ op ∈ ops, hashQuery op.query ≠ hkey) :
    alistFind hkey (applySets s ops).memory_cache = none ∧
    alistFind hkey (applySets s ops).db = none := by
  induction ops generalizing s with
  | nil => exact ⟨hm, hd⟩
  | cons op rest ih =>
      refine ih _ ?_ ?_ (fun x hx => hops x (List.mem_cons_of_mem _ hx))
      · simp [CacheState.set, alistFind_insert, hops op (List.mem_cons_self _ _), hm]
      · simp [CacheState.set, alistFind_insert, hops op (List.mem_cons_self _ _), hd]

theorem get_of_find_none (s : CacheState) (q : String) (now : Int)
    (hm : alistFind (hashQuery q) s.memory_cache = none)
    (hd : alistFind (hashQuery q) s.db = none) :
    s.get q now = (none, s) := by
  simp [CacheState.get, dbCacheLookup, hm, hd]

theorem processQuery_hit (o : Oracles) (pf : String → Option Rat)
    (req : QueryRequest) (st : PersistState) (now : Int) (fid : String) (el : Rat)
    (cached : CachedData) (c' : CacheState)
    (hget : st.cache.get req.question now = (some cached, c')) :
    processQuery o pf req st now fid el =
      cacheHitPath o req st c' cached now (req.conversation_id.getD fid) := by
  unfold processQuery
  rw [hget]

theorem processQuery_miss (o : Oracles) (pf : String → Option Rat)
    (req : QueryRequest) (st : PersistState) (now : Int) (fid : String) (el : Rat)
    (c' : CacheState)
    (hget : st.cache.get req.question now = (none, c')) :
    processQuery o pf req st now fid el =
      cacheMissPath o pf req st c' now (req.conversation_id.getD fid) el := by
  unfold processQuery
  rw [hget]

theorem cacheMissPath_response (o : Oracles) (pf : String → Option Rat)
    (req : QueryRequest) (st : PersistState) (c' : CacheState) (now : Int)
    (cid : String) (el : Rat) :
    (cacheMissPath o pf req st c' now cid el).1.response =
      o.generateReply req.question (missOutcome o pf req.question).context := rfl

theorem cacheMissPath_sources (o : Oracles) (pf : String → Option Rat)
    (req : QueryRequest) (st : PersistState) (c' : CacheState) (now : Int)
    (cid : String) (el : Rat) :
    (cacheMissPath o pf req st c' now cid el).1.sources =
      (missOutcome o pf req.question).sources := rfl

theorem cacheMissPath_calls (o : Oracles) (pf : String → Option Rat)
    (req : QueryRequest) (st : PersistState) (c' : CacheState) (now : Int)
    (cid : String) (el : Rat) :
    (cacheMissPath o pf req st c' now cid el).2.2 =
      (missOutcome o pf req.question).calls := rfl

theorem cacheMissPath_sentiment_isSome (o : Oracles) (pf : String → Option Rat)
    (req : QueryRequest) (st : PersistState) (c' : CacheState) (now : Int)
    (cid : String) (el : Rat) :
    (cacheMissPath o pf req st c' now cid el).1.sentiment ≠ none := by
  simp [cacheMissPath]

theorem missOutcome_def (o : Oracles) (pf : String → Option Rat) (question : String) :
    missOutcome o pf question =
      retrieveAndGrade o question (pyLower (pyStrip (o.routeReply question)))
        (missRouted o pf question).2 := rfl

theorem missRouted_fst (o : Oracles) (pf : String → Option Rat) (question : String) :
    (missRouted o pf question).1 = pyLower (pyStrip (o.routeReply question)) := rfl

theorem missRouted_trace_length (o : Oracles) (pf : String → Option Rat)
    (question : String) : (missRouted o pf question).2.length = 2 := rfl

theorem retrieveAndGrade_retry (o : Oracles) (question tool : String)
    (trace : List String)
    (htool : tool = "knowledge_base" ∨ tool = "direct_answer")
    (hne : (o.retrieve question).isEmpty = false)
    (hirrel : pyIn "yes"
      (pyLower (o.gradeReply question (buildContext1 (o.retrieve question)))) = false)
    (hlen : trace.length + 1 < 5) :
    (retrieveAndGrade o question tool trace).calls =
      { retrieveCalls := [question, pyStrip (o.rewriteReply question)],
        rewriteCalls := [question] } ∧
    (retrieveAndGrade o question tool trace).sources =
      (if (o.retrieve (pyStrip (o.rewriteReply question))).isEmpty then
        buildSources1 (o.retrieve question)
       else buildSources2 (o.retrieve (pyStrip (o.rewriteReply question)))) ∧
    (retrieveAndGrade o question tool trace).context =
      (if (o.retrieve (pyStrip (o.rewriteReply question))).isEmpty then
        buildContext1 (o.retrieve question)
       else buildContext2 (o.retrieve (pyStrip (o.rewriteReply question)))) := by
  unfold retrieveAndGrade
  rw [if_pos htool]
  simp only [hne, Bool.false_eq_true, if_false, gradeDocuments, hirrel, rewriteQuery]
  rw [if_pos (show True ∧
      (trace ++ ["Document relevance: " ++ "✗ Not relevant"]).length < 5
      from ⟨trivial, by simpa using hlen⟩)]
  by_cases h2 : (o.retrieve (pyStrip (o.rewriteReply question))).isEmpty = true
  · simp [h2]
  · simp [h2]

theorem retrieveAndGrade_trace_irrel (o : Oracles) (question tool : String)
    (t1 t2 : List String) (h : t1.length = t2.length) :
    (retrieveAndGrade o question tool t1).context =
      (retrieveAndGrade o question tool t2).context ∧
    (retrieveAndGrade o question tool t1).sources =
      (retrieveAndGrade o question tool t2).sources ∧
    (retrieveAndGrade o question tool t1).retrieved_count =
      (retrieveAndGrade o question tool t2).retrieved_count ∧
    (retrieveAndGrade o question tool t1).calls =
      (retrieveAndGrade o question tool t2).calls := by
  unfold retrieveAndGrade
  by_cases h1 : tool = "knowledge_base" ∨ tool = "direct_answer"
  · rw [if_pos h1, if_pos h1]
    by_cases h2 : (o.retrieve question).isEmpty = true
    · simp [h2]
    · simp only [h2, Bool.false_eq_true, if_false, gradeDocuments, rewriteQuery]
      by_cases hb : pyIn "yes"
          (pyLower (o.gradeReply question (buildContext1 (o.retrieve question)))) = false
      · by_cases hl : t2.length + 1 < 5
        · by_cases h3 : (o.retrieve (pyStrip (o.rewriteReply question))).isEmpty = true
          · simp [hb, hl, h, h3]
          · simp [hb, hl, h, h3]
        · simp [hb, hl, h]
      · simp [hb]
  · rw [if_neg h1, if_neg h1]
    simp

theorem missOutcome_as_retrieveAndGrade (o : Oracles)
    (f : String → Except Unit String) (pf : String → Option Rat) (question : String) :
    missOutcome { o with sentimentReply := f } pf question =
      retrieveAndGrade o question (pyLower (pyStrip (o.routeReply question)))
        (missRouted { o with sentimentReply := f } pf question).2 := rfl

theorem processQuery_response_sentiment_irrel (o : Oracles)
    (f1 f2 : String → Except Unit String) (pf : String → Option Rat)
    (req : QueryRequest) (st : PersistState) (now : Int) (fid : String) (el : Rat) :
    (processQuery { o with sentimentReply := f1 } pf req st now fid el).1.response =
      (processQuery { o with sentimentReply := f2 } pf req st now fid el).1.response := by
  rcases hget : st.cache.get req.question now with ⟨res, c'⟩
  cases res with
  | some cached =>
      rw [processQuery_hit _ _ _ _ _ _ _ _ _ hget,
          processQuery_hit _ _ _ _ _ _ _ _ _ hget]
      rfl
  | none =>
      rw [processQuery_miss _ _ _ _ _ _ _ _ hget,
          processQuery_miss _ _ _ _ _ _ _ _ hget,
          cacheMissPath_response, cacheMissPath_response,
          missOutcome_as_retrieveAndGrade, missOutcome_as_retrieveAndGrade]
      exact congrArg (({ o with sentimentReply := f1 } : Oracles).generateReply req.question)
        (retrieveAndGrade_trace_irrel o req.question
          (pyLower (pyStrip (o.routeReply req.question)))
          (missRouted { o with sentimentReply := f1 } pf req.question).2
          (missRouted { o with sentimentReply := f2 } pf req.question).2 rfl).1

/-- C1 (amended): for every question routed to knowledge_base or direct_answer
whose first retrieval returns passages that the relevance oracle judges
irrelevant, exactly one rewrite-and-retry occurs (the retrieval log is
exactly the original question followed by the rewritten one, and the rewrite
log exactly the original question, so no third retrieval and no second
rewrite ever occur); the final context and source list are replaced with the
second retrieval's results when the second retrieval is non-empty, and are
kept as the first retrieval's results when the second retrieval is empty.
The `fewer than 5 trace entries` guard always holds at the grading point
(the trace has exactly 3 entries there), so it imposes no extra hypothesis. -/
theorem bounded_retry_after_irrelevant (o : Oracles) (pf : String → Option Rat)
    (req : QueryRequest) (st : PersistState) (now : Int) (fid : String) (el : Rat)
    (hmiss : (st.cache.get req.question now).1 = none)
    (htool : pyLower (pyStrip (o.routeReply req.question)) = "knowledge_base" ∨
             pyLower (pyStrip (o.routeReply req.question)) = "direct_answer")
    (hne : (o.retrieve req.question).isEmpty = false)
    (hirrel : pyIn "yes"
      (pyLower (o.gradeReply req.question (buildContext1 (o.retrieve req.question))))
        = false) :
    (processQuery o pf req st now fid el).2.2.retrieveCalls =
      [req.question, pyStrip (o.rewriteReply req.question)] ∧
    (processQuery o pf req st now fid el).2.2.rewriteCalls = [req.question] ∧
    (processQuery o pf req st now fid el).1.sources =
      (if (o.retrieve (pyStrip (o.rewriteReply req.question))).isEmpty then
        buildSources1 (o.retrieve req.question)
       else buildSources2 (o.retrieve (pyStrip (o.rewriteReply req.question)))) ∧
    (processQuery o pf req st now fid el).1.response =
      o.generateReply req.question
        (if (o.retrieve (pyStrip (o.rewriteReply req.question))).isEmpty then
          buildContext1 (o.retrieve req.question)
         else buildContext2 (o.retrieve (pyStrip (o.rewriteReply req.question)))) := by
  rcases hget : st.cache.get req.question now with ⟨res, c'⟩
  have hres : res = none := by rw [hget] at hmiss; exact hmiss
  subst hres
  rw [processQuery_miss o pf req st now fid el c' hget]
  rw [cacheMissPath_calls, cacheMissPath_sources, cacheMissPath_response,
      missOutcome_def]
  have hlen : (missRouted o pf req.question).2.length + 1 < 5 := by
    rw [missRouted_trace_length]
    norm_num
  obtain ⟨hc, hs, hx⟩ := retrieveAndGrade_retry o req.question
    (pyLower (pyStrip (o.routeReply req.question)))
    (missRouted o pf req.question).2 htool hne hirrel hlen
  rw [hc, hs, hx]
  exact ⟨rfl, rfl, rfl, rfl⟩

/-- C1 witness: a concrete run with an irrelevant first retrieval performs
exactly the two retrievals "q1" then "q2" and exactly one rewrite. -/
theorem bounded_retry_after_irrelevant_witness :
    (processQuery oraclesKB pf0 { question := "q1" } emptyPersist 0 "cid" 1).2.2.retrieveCalls
      = ["q1", "q2"] ∧
    (processQuery oraclesKB pf0 { question := "q1" } emptyPersist 0 "cid" 1).2.2.rewriteCalls
      = ["q1"] := by
  have h := bounded_retry_after_irrelevant oraclesKB pf0 { question := "q1" }
    emptyPersist 0 "cid" 1 (by decide) (Or.inl (by decide)) (by decide) (by decide)
  exact ⟨h.1, h.2.1⟩

/-- C1 counterexample: under `oraclesKB` the rewritten query "q2" retrieves
nothing, yet the final source list is the first retrieval's non-empty list —
it is not replaced with the (empty) second retrieval's results, contradicting
the claim's `even if the second retrieval is empty` part. -/
theorem bounded_retry_counterexample :
    oraclesKB.retrieve (pyStrip (oraclesKB.rewriteReply "q1")) = [] ∧
    (processQuery oraclesKB pf0 { question := "q1" } emptyPersist 0 "cid" 1).1.sources =
      [{ source := "a.txt", relevance := 1, preview := "alpha" }] := ⟨rfl, rfl⟩

/-- C2: on a cache hit the pipeline short-circuits: the response carries the
cached answer and sources with the cache-hit marker as the whole trace and
freshly generated follow-ups; the conversations table and sentiment log are
untouched and no cache write happens (the final cache state is exactly what
the lookup itself produced, which per the spec includes the hit-count bump);
the only persistence side effect is the single analytics insert. -/
theorem cache_hit_short_circuit (o : Oracles) (pf : String → Option Rat)
    (req : QueryRequest) (st : PersistState) (now : Int) (fid : String) (el : Rat)
    (cached : CachedData) (c' : CacheState)
    (hhit : st.cache.get req.question now = (some cached, c')) :
    (processQuery o pf req st now fid el).1.response = cached.response ∧
    (processQuery o pf req st now fid el).1.sources = cached.sources ∧
    (processQuery o pf req st now fid el).1.from_cache = true ∧
    (processQuery o pf req st now fid el).1.reasoning_steps = ["Retrieved from cache"] ∧
    (processQuery o pf req st now fid el).1.suggested_questions =
      o.followupGen req.question cached.response ∧
    (processQuery o pf req st now fid el).2.1.conversations = st.conversations ∧
    (processQuery o pf req st now fid el).2.1.sentiment_log = st.sentiment_log ∧
    (processQuery o pf req st now fid el).2.1.cache = c' ∧
    (processQuery o pf req st now fid el).2.1.analytics = st.analytics ++
      [{ query := req.question, response_time_ms := 5, tokens_used := 0,
         documents_retrieved := cached.sources.length, rating := none,
         created_at := now }] := by
  rw [processQuery_hit o pf req st now fid el cached c' hhit]
  exact ⟨rfl, rfl, rfl, rfl, rfl, rfl, rfl, rfl, rfl⟩

/-- C2 witness: a concrete cache hit returns the cached answer, leaves the
sentiment log empty, and appends exactly one analytics row. -/
theorem cache_hit_short_circuit_witness :
    (processQuery oraclesKB pf0 { question := "q" } stHit 0 "cid" 1).1.response = "ans" ∧
    (processQuery oraclesKB pf0 { question := "q" } stHit 0 "cid" 1).2.1.sentiment_log = [] ∧
    (processQuery oraclesKB pf0 { question := "q" } stHit 0 "cid" 1).2.1.analytics.length = 1 := by
  have h := cache_hit_short_circuit oraclesKB pf0 { question := "q" } stHit 0 "cid" 1
    { response := "ans", sources := [srcA], from_cache := false } stHit.cache (by rfl)
  refine ⟨h.1, h.2.2.2.2.2.2.1, ?_⟩
  rw [h.2.2.2.2.2.2.2.2]
  rfl

/-- C3 (amended): for every configured `ttl_hours` of at least 24 (the
default is exactly 24) an entry older than `ttl_hours` is never returned by
`get`, from either tier, and a second `get` after expiry still returns
nothing; for `ttl_hours` below 24 the durable tier's hardcoded 24-hour SQL
filter can return entries older than the configured window (see the
counterexample). -/
theorem cache_expiry_of_ttl_ge (s : CacheState) (q a : String) (src : List Source)
    (t0 now : Int) (httl : 24 ≤ s.ttl_hours) (hexp : s.ttl_hours ≤ now - t0) :
    (((s.set q a src t0).get q now)).1 = none ∧
    ((((s.set q a src t0).get q now)).2.get q now).1 = none := by
  have h1 : ¬ (now - t0 < s.ttl_hours) := by omega
  have h2 : ¬ (now - t0 < 24) := by omega
  constructor
  · simp [CacheState.get, CacheState.set, dbCacheLookup, alistFind_insert,
      alistFind_erase_self, h1, h2]
  · simp [CacheState.get, CacheState.set, dbCacheLookup, alistFind_insert,
      alistFind_erase_self, h1, h2]

/-- C3 witness: with the default 24-hour window, an entry created at time 0 is
gone at time 24 and stays gone on a repeated lookup. -/
theorem cache_expiry_of_ttl_ge_witness :
    (((emptyCache 24).set "q" "a" [] 0).get "q" 24).1 = none ∧
    ((((emptyCache 24).set "q" "a" [] 0).get "q" 24).2.get "q" 24).1 = none :=
  cache_expiry_of_ttl_ge (emptyCache 24) "q" "a" [] 0 24 (by decide) (by decide)

/-- C3 counterexample: with `ttl_hours = 12`, an entry aged 18 hours is older
than the configured freshness window, yet `get` still returns it — the
in-process tier evicts it but the durable tier's hardcoded 24-hour filter
serves it. -/
theorem cache_expiry_counterexample :
    (12 : Int) < 18 - 0 ∧
    (((emptyCache 12).set "q" "a" [] 0).get "q" 18).1 =
      some { response := "a", sources := [], from_cache := true } := ⟨by decide, rfl⟩

/-- C4 (amended): `set(q, a, s)` followed by `get(q)` within the freshness
window returns exactly `a` and `s`; and `get` returns the no-entry result for
any question whose normalized (lower-cased, stripped) form was never passed
to `set` — mere textual inequality is not enough, since a question that
normalizes to a written question's form shares its entry (see the
counterexample). -/
theorem cache_roundtrip_and_unwritten_miss (s : CacheState) (q a : String)
    (src : List Source) (t now : Int) (hfresh : now - t < s.ttl_hours)
    (ttl : Int) (ops : List SetOp) (q' : String) (now' : Int)
    (hnever : ∀ op ∈ ops, normalizeQuery op.query ≠ normalizeQuery q') :
    ((s.set q a src t).get q now).1 =
      some { response := a, sources := src, from_cache := false } ∧
    ((applySets (emptyCache ttl) ops).get q' now').1 = none := by
  constructor
  · simp [CacheState.get, CacheState.set, alistFind_insert, hfresh]
  · obtain ⟨hm, hd⟩ := applySets_find_none (hashQuery q') (emptyCache ttl) ops rfl rfl
      (fun op hop => hnever op hop)
    rw [get_of_find_none _ _ _ hm hd]

/-- C4 witness: a concrete roundtrip and a concrete never-written question. -/
theorem cache_roundtrip_and_unwritten_miss_witness :
    (((emptyCache 24).set "New Q" "ans" [srcA] 5).get "New Q" 6).1 =
      some { response := "ans", sources := [srcA], from_cache := false } ∧
    ((applySets (emptyCache 24) [opOther]).get "fresh question" 0).1 = none := by
  have h := cache_roundtrip_and_unwritten_miss (emptyCache 24) "New Q" "ans" [srcA]
    5 6 (by decide) 24 [opOther] "fresh question" 0 (by decide)
  exact ⟨h.1, h.2⟩

/-- C4 counterexample: "HI " was never passed to `set`, yet after
`set("hi", a, s)` the lookup `get("HI ")` returns the entry, because the key
is derived from the normalized question; the claim's `for any question never
passed to set` is therefore too strong as stated. -/
theorem cache_unwritten_question_counterexample :
    ("HI " ≠ "hi") ∧
    (((emptyCache 24).set "hi" "a" [] 0).get "HI " 0).1 =
      some { response := "a", sources := [], from_cache := false } := ⟨by decide, rfl⟩

/-- C5: fetching a conversation id absent from the store does not produce the
distinct 404 outcome the claim (and the spec) require: the handler raises
`HTTPException(404)` inside its `try` block, but the blanket
`except Exception` catches it and re-raises a 500 carrying the stringified
404 — so an unknown id is conflated with a server fault.  A present id does
return the stored fields. -/
theorem conversation_notfound_masked_as_500 :
    getConversation ([] : List (String × ConvRow)) "missing-id" =
      .httpError 500 "404: Conversation not found" ∧
    getConversation [("c1", convRowA)] "c1" =
      .ok { conversation_id := "c1", created_at := 7,
            messages := [("user", "hello")], sources_used := [] } := ⟨rfl, rfl⟩

/-- C6 (amended): for a catalog id that is present, `delete_document` removes
the catalog row and reports the deletion as successful regardless of the
retrieval-side outcome; but the returned `vector_store_deleted` flag does not
truthfully report that outcome — it equals whether the vector store was
initialized, reporting `True` even when every delete attempt raised. -/
theorem delete_document_best_effort (kb : List (String × KBRow))
    (document_id : String) (env : VectorDeleteEnv) (row : KBRow)
    (h : alistFind document_id kb = some row) :
    (deleteDocument kb document_id env).1 =
      .ok { status := "deleted", document_id := document_id,
            filename := row.filename, vector_store_deleted := env.initialized } ∧
    alistFind document_id (deleteDocument kb document_id env).2 = none ∧
    deleteDocumentsBySource env = env.initialized := by
  have hflag : deleteDocumentsBySource env = env.initialized := by
    rcases env with ⟨i, x, y, z⟩
    cases i <;> cases x <;> cases y <;> cases z <;> rfl
  refine ⟨?_, ?_, hflag⟩
  · simp [deleteDocument, h, hflag]
  · simp [deleteDocument, h, alistFind_erase_self]

/-- C6 witness: deleting a present document removes its row and reports
success. -/
theorem delete_document_best_effort_witness :
    (deleteDocument [("d1", kbRowF)] "d1" envOK).1 =
      .ok { status := "deleted", document_id := "d1", filename := "f.txt",
            vector_store_deleted := true } ∧
    alistFind "d1" (deleteDocument [("d1", kbRowF)] "d1" envOK).2 = none := by
  have h := delete_document_best_effort [("d1", kbRowF)] "d1" envOK kbRowF (by rfl)
  exact ⟨h.1, h.2.1⟩

/-- C6 counterexample: with the store initialized and both delete attempts
raising, the retrieval-side removal did not succeed, yet the handler reports
`vector_store_deleted = True` — the flag is not truthful. -/
theorem delete_document_flag_counterexample :
    vectorDeleteSucceeded envBad = false ∧
    (deleteDocument [("d1", kbRowF)] "d1" envBad).1 =
      .ok { status := "deleted", document_id := "d1", filename := "f.txt",
            vector_store_deleted := true } := ⟨rfl, rfl⟩

/-- C7: if the sentiment oracle raises, or its reply does not split into
exactly two pipe-separated parts, or the score part does not parse as a
float, `SentimentAnalyzer.analyze` returns the default `("neutral", 0.0)`
instead of propagating an error; and the primary answer of the pipeline does
not depend on the sentiment oracle at all, so the request still returns a
successful answer. -/
theorem sentiment_failure_defaults (reply : Except Unit String)
    (pf : String → Option Rat)
    (hfail : reply = .error () ∨
      (∃ c, reply = .ok c ∧ (pySplitPipe (pyStrip c)).length ≠ 2) ∨
      (∃ c x y, reply = .ok c ∧ pySplitPipe (pyStrip c) = [x, y] ∧
        pf (pyStrip y) = none)) :
    analyze reply pf = ("neutral", 0) ∧
    ∀ (o : Oracles) (f1 f2 : String → Except Unit String)
      (req : QueryRequest) (st : PersistState) (now : Int) (fid : String) (el : Rat),
      (processQuery { o with sentimentReply := f1 } pf req st now fid el).1.response =
        (processQuery { o with sentimentReply := f2 } pf req st now fid el).1.response := by
  constructor
  · rcases hfail with h | ⟨c, hc, hlen⟩ | ⟨c, x, y, hc, hsplit, hpf⟩
    · subst h; rfl
    · subst hc
      rcases hl : pySplitPipe (pyStrip c) with _ | ⟨x1, _ | ⟨x2, _ | ⟨x3, t3⟩⟩⟩
      · simp [analyze, hl]
      · simp [analyze, hl]
      · exact absurd (by rw [hl]; rfl) hlen
      · simp [analyze, hl]
    · subst hc
      simp [analyze, hsplit, hpf]
  · intro o f1 f2 req st now fid el
    exact processQuery_response_sentiment_irrel o f1 f2 pf req st now fid el

/-- C7 witness: a raising sentiment oracle yields the neutral default, and a
concrete request answers identically under a raising and a healthy sentiment
oracle. -/
theorem sentiment_failure_defaults_witness :
    analyze (Except.error ()) pf0 = ("neutral", 0) ∧
    (processQuery { oraclesKB with sentimentReply := fun _ => .error () } pf0
        { question := "q1" } emptyPersist 0 "cid" 1).1.response =
      (processQuery { oraclesKB with sentimentReply := fun _ => .ok "neutral|0" } pf0
        { question := "q1" } emptyPersist 0 "cid" 1).1.response := by
  have h := sentiment_failure_defaults (Except.error ()) pf0 (Or.inl rfl)
  exact ⟨h.1, h.2 oraclesKB (fun _ => .error ()) (fun _ => .ok "neutral|0")
    { question := "q1" } emptyPersist 0 "cid" 1⟩

/-- C8: two questions equal after lower-casing and stripping derive the same
cache key, get the same lookup result from any cache state, and share one
entry (setting under one and getting under the other hits within the
freshness window); and the key depends only on the question text: two
requests with the same question — whatever their customer or conversation
identity — receive the same answer, sources and cache flag. -/
theorem cache_key_normalization (s : CacheState) (q1 q2 : String) (now : Int)
    (h : normalizeQuery q1 = normalizeQuery q2) :
    hashQuery q1 = hashQuery q2 ∧
    s.get q1 now = s.get q2 now ∧
    (∀ a src (t now' : Int), now' - t < s.ttl_hours →
      ((s.set q1 a src t).get q2 now').1 =
        some { response := a, sources := src, from_cache := false }) ∧
    (∀ (o : Oracles) (pf : String → Option Rat) (r1 r2 : QueryRequest)
       (st : PersistState) (fid : String) (el : Rat), r1.question = r2.question →
       (processQuery o pf r1 st now fid el).1.response =
         (processQuery o pf r2 st now fid el).1.response ∧
       (processQuery o pf r1 st now fid el).1.sources =
         (processQuery o pf r2 st now fid el).1.sources ∧
       (processQuery o pf r1 st now fid el).1.from_cache =
         (processQuery o pf r2 st now fid el).1.from_cache) := by
  have hk : hashQuery q1 = hashQuery q2 := h
  refine ⟨hk, ?_, ?_, ?_⟩
  · unfold CacheState.get
    rw [hk]
  · intro a src t now' hfresh
    simp [CacheState.get, CacheState.set, alistFind_insert, hk, hfresh]
  · intro o pf r1 r2 st fid el hq
    rcases hget : st.cache.get r1.question now with ⟨res, c'⟩
    have hget2 : st.cache.get r2.question now = (res, c') := by rw [← hq]; exact hget
    cases res with
    | some cached =>
        rw [processQuery_hit o pf r1 st now fid el cached c' hget,
            processQuery_hit o pf r2 st now fid el cached c' hget2]
        exact ⟨rfl, rfl, rfl⟩
    | none =>
        rw [processQuery_miss o pf r1 st now fid el c' hget,
            processQuery_miss o pf r2 st now fid el c' hget2,
            cacheMissPath_response, cacheMissPath_response,
            cacheMissPath_sources, cacheMissPath_sources, hq]
        exact ⟨rfl, rfl, rfl⟩

/-- C8 witness: "Hi" and " hi " derive the same key, and an entry written
under "Hi" is returned for " hi ". -/
theorem cache_key_normalization_witness :
    hashQuery "Hi" = hashQuery " hi " ∧
    (((emptyCache 24).set "Hi" "a" [] 0).get " hi " 0).1 =
      some { response := "a", sources := [], from_cache := false } := by
  have h := cache_key_normalization (emptyCache 24) "Hi" " hi " 0 (by decide)
  exact ⟨h.1, h.2.2.1 "a" [] 0 0 (by decide)⟩

/-- C9: when the first retrieval is judged irrelevant and the post-rewrite
retrieval returns passages, every source in the final response reports
relevance exactly 0.0 — the second retrieval's similarity scores are
discarded. -/
theorem rewrite_sources_zero_relevance (o : Oracles) (pf : String → Option Rat)
    (req : QueryRequest) (st : PersistState) (now : Int) (fid : String) (el : Rat)
    (hmiss : (st.cache.get req.question now).1 = none)
    (htool : pyLower (pyStrip (o.routeReply req.question)) = "knowledge_base" ∨
             pyLower (pyStrip (o.routeReply req.question)) = "direct_answer")
    (hne : (o.retrieve req.question).isEmpty = false)
    (hirrel : pyIn "yes"
      (pyLower (o.gradeReply req.question (buildContext1 (o.retrieve req.question))))
        = false)
    (hne2 : (o.retrieve (pyStrip (o.rewriteReply req.question))).isEmpty = false) :
    ∀ src ∈ (processQuery o pf req st now fid el).1.sources, src.relevance = 0 := by
  rcases hget : st.cache.get req.question now with ⟨res, c'⟩
  have hres : res = none := by rw [hget] at hmiss; exact hmiss
  subst hres
  rw [processQuery_miss o pf req st now fid el c' hget, cacheMissPath_sources,
      missOutcome_def]
  obtain ⟨hc, hs, hx⟩ := retrieveAndGrade_retry o req.question
    (pyLower (pyStrip (o.routeReply req.question)))
    (missRouted o pf req.question).2 htool hne hirrel
    (by rw [missRouted_trace_length]; norm_num)
  rw [hs]
  intro src hsrc
  simp only [hne2, Bool.false_eq_true, if_false, buildSources2, List.mem_map] at hsrc
  obtain ⟨p, hp, hps⟩ := hsrc
  rw [← hps]

/-- C9 witness: applying the theorem to a concrete run whose rewritten query
retrieves the document "b.txt"; its reported source has relevance 0 although
its similarity score was 2. -/
theorem rewrite_sources_zero_relevance_witness :
    ({ source := "b.txt", relevance := 0, preview := "beta" } : Source).relevance
      = 0 :=
  rewrite_sources_zero_relevance oraclesKB2 pf0 { question := "q1" } emptyPersist
    0 "cid" 1 (by decide) (Or.inl (by decide)) (by decide) (by decide) (by decide)
    { source := "b.txt", relevance := 0, preview := "beta" } (by decide)

/-- C10: every request answered from the cache carries `sentiment = None` —
no sentiment is reported on the hit path — while any cache-miss request
carries a non-None sentiment tag. -/
theorem cache_hit_sentiment_none (o : Oracles) (pf : String → Option Rat)
    (req : QueryRequest) (st : PersistState) (now : Int) (fid : String) (el : Rat) :
    (∀ cached c', st.cache.get req.question now = (some cached, c') →
      (processQuery o pf req st now fid el).1.sentiment = none) ∧
    (∀ c', st.cache.get req.question now = (none, c') →
      (processQuery o pf req st now fid el).1.sentiment ≠ none) := by
  constructor
  · intro cached c' hget
    rw [processQuery_hit o pf req st now fid el cached c' hget]
    rfl
  · intro c' hget
    rw [processQuery_miss o pf req st now fid el c' hget]
    exact cacheMissPath_sentiment_isSome o pf req st c' now
      (req.conversation_id.getD fid) el

/-- C10 witness: a concrete hit has no sentiment; the same pipeline on a miss
has one. -/
theorem cache_hit_sentiment_none_witness :
    (processQuery oraclesKB pf0 { question := "q" } stHit 0 "cid" 1).1.sentiment
      = none ∧
    (processQuery oraclesKB pf0 { question := "zzz" } emptyPersist 0 "cid" 1).1.sentiment
      ≠ none := by
  have h1 := cache_hit_sentiment_none oraclesKB pf0 { question := "q" } stHit 0 "cid" 1
  have h2 := cache_hit_sentiment_none oraclesKB pf0 { question := "zzz" }
    emptyPersist 0 "cid" 1
  exact ⟨h1.1 { response := "ans", sources := [srcA], from_cache := false }
    stHit.cache (by rfl), h2.2 (emptyCache 24) (by rfl)⟩

end RAGSupport
